import Mathlib

/-!
A model of `utils/rcwtool.c` from the libmcp2221 repository.

The tool reads a 4-byte Reset Configuration Word (RCW) from an I2C EEPROM,
interprets it through several overlapping bitfield views (generic/RCON, SD,
MMC, QSPI), applies a boot policy, and writes the word back when something
changed.  The 32-bit word is modelled as a `Nat`; each C bitfield of width
`n` at bit offset `lo` is extracted as `w / 2^lo % 2^n` and assigned as
`w % 2^lo + (v % 2^n) * 2^lo + w / 2^(lo+n) * 2^(lo+n)`, with the powers of
two written as literals.  Bit offsets are the cumulative widths of the
preceding fields of the corresponding C struct inside `union rcw_u`
(rcwtool.c lines 37-94).
-/

namespace Rcwtool

/-- Constant `MAX_BUFSZ` (rcwtool.c line 22): size bound of the write buffer
`wbuf` in `at24c01_write` (the array holds `MAX_BUFSZ + 1` bytes). -/
def MAX_BUFSZ : Nat := 60

/-- Constant `WAIT_PERIOD_50MS` (rcwtool.c line 28). -/
def WAIT_PERIOD_50MS : Nat := 7

/-- Constant `RCON_SRC_I2C` (rcwtool.c line 29). -/
def RCON_SRC_I2C : Nat := 1

/-- Constant `DEFAULT_EEPROM_ADDRESS` (rcwtool.c line 20): 0x50. -/
def DEFAULT_EEPROM_ADDRESS : Int := 0x50

/-- Enumeration `boot_t` (rcwtool.c lines 31-35). -/
inductive boot_t where
  | BOOT_QSPI
  | BOOT_SD
  | BOOT_MMC
deriving DecidableEq

/-- Numeric values of `boot_t`: BOOT_QSPI = 0, BOOT_SD = 2, BOOT_MMC = 3
(rcwtool.c lines 31-35). -/
def boot_t.toNat : boot_t → Nat
  | .BOOT_QSPI => 0
  | .BOOT_SD => 2
  | .BOOT_MMC => 3

/-! Field extractors of the `rcon` view (rcwtool.c lines 40-50):
phy:2 res0:3 boot:3 src:1 res1:6 xosc:1 res2:3 res3:12 pll:1, so
phy is at bit 0, boot at bit 5, src at bit 8, xosc at bit 15, pll at bit 31. -/

/-- Field `rcon.phy` (bits 0-1). -/
def rcon_phy (w : Nat) : Nat := w % 4

/-- Field `rcon.boot` (bits 5-7). -/
def rcon_boot (w : Nat) : Nat := w / 32 % 8

/-- Field `rcon.src` (bit 8). -/
def rcon_src (w : Nat) : Nat := w / 256 % 2

/-- Field `rcon.xosc` (bit 15). -/
def rcon_xosc (w : Nat) : Nat := w / 32768 % 2

/-- Field `rcon.pll` (bit 31). -/
def rcon_pll (w : Nat) : Nat := w / 2147483648 % 2

/-! Field extractors of the `sd` view (rcwtool.c lines 51-62):
phy:2 res0:3 boot:3 src:1 res1:6 xosc:1 wait:3 speed:1 res2:11 pll:1, so
wait is at bit 16 and speed at bit 19. -/

/-- Field `sd.phy` (bits 0-1). -/
def sd_phy (w : Nat) : Nat := w % 4

/-- Field `sd.boot` (bits 5-7). -/
def sd_boot (w : Nat) : Nat := w / 32 % 8

/-- Field `sd.src` (bit 8). -/
def sd_src (w : Nat) : Nat := w / 256 % 2

/-- Field `sd.wait` (bits 16-18). -/
def sd_wait (w : Nat) : Nat := w / 65536 % 8

/-- Field `sd.speed` (bit 19). -/
def sd_speed (w : Nat) : Nat := w / 524288 % 2

/-- Field `sd.pll` (bit 31). -/
def sd_pll (w : Nat) : Nat := w / 2147483648 % 2

/-! Field extractors of the `mmc` view (rcwtool.c lines 63-74):
phy:2 res0:3 boot:3 src:1 res1:6 xosc:1 wait:3 mode:4 res2:8 pll:1. -/

/-- Field `mmc.phy` (bits 0-1). -/
def mmc_phy (w : Nat) : Nat := w % 4

/-- Field `mmc.boot` (bits 5-7). -/
def mmc_boot (w : Nat) : Nat := w / 32 % 8

/-- Field `mmc.src` (bit 8). -/
def mmc_src (w : Nat) : Nat := w / 256 % 2

/-- Field `mmc.wait` (bits 16-18). -/
def mmc_wait (w : Nat) : Nat := w / 65536 % 8

/-- Field `mmc.mode` (bits 19-22). -/
def mmc_mode (w : Nat) : Nat := w / 524288 % 16

/-- Field `mmc.pll` (bit 31). -/
def mmc_pll (w : Nat) : Nat := w / 2147483648 % 2

/-! Field extractors of the `qspi` view (rcwtool.c lines 75-93):
phy:2 mode:3 boot:3 src:1 port:1 ck2:1 cas:4 xosc:1 por_delay:3 ckn:1
res3:2 tdh:2 fsphs:1 fsdly:1 dllfsmpf:3 dqs_sel:2 pll:1, so phy is at
bit 0, boot at bit 5, src at bit 8 and pll at bit 31 here as well. -/

/-- Field `qspi.phy` (bits 0-1). -/
def qspi_phy (w : Nat) : Nat := w % 4

/-- Field `qspi.boot` (bits 5-7). -/
def qspi_boot (w : Nat) : Nat := w / 32 % 8

/-- Field `qspi.src` (bit 8). -/
def qspi_src (w : Nat) : Nat := w / 256 % 2

/-- Field `qspi.pll` (bit 31). -/
def qspi_pll (w : Nat) : Nat := w / 2147483648 % 2

/-! Bitfield assignment, as performed by the C statements
`rcw.rcon.src = ...`, `rcw.rcon.boot = ...`, `rcw.sd.speed = ...` and
`rcw.sd.wait = ...` in `main`. -/

/-- Assignment `rcw.rcon.src = v` (bit 8, width 1). -/
def rcon_set_src (w v : Nat) : Nat := w % 256 + v % 2 * 256 + w / 512 * 512

/-- Assignment `rcw.rcon.boot = v` (bits 5-7, width 3). -/
def rcon_set_boot (w v : Nat) : Nat := w % 32 + v % 8 * 32 + w / 256 * 256

/-- Assignment `rcw.sd.wait = v` (bits 16-18, width 3). -/
def sd_set_wait (w v : Nat) : Nat :=
  w % 65536 + v % 8 * 65536 + w / 524288 * 524288

/-- Assignment `rcw.sd.speed = v` (bit 19, width 1). -/
def sd_set_speed (w v : Nat) : Nat :=
  w % 524288 + v % 2 * 524288 + w / 1048576 * 1048576

/-! The boot policy of `main` (rcwtool.c lines 362-384), decomposed into the
same blocks as the C code.  A state is the pair of the current word and the
current value of the `changed` flag.  The C declares `bool changed;` without
an initializer (line 328), so the policy is modelled as a function of an
explicit initial flag value `changed0`. -/

/-- Block at rcwtool.c lines 362-365: force `src` to `RCON_SRC_I2C`. -/
def step_src (s : Nat × Bool) : Nat × Bool :=
  if rcon_src s.1 ≠ RCON_SRC_I2C then (rcon_set_src s.1 RCON_SRC_I2C, true) else s

/-- Block at rcwtool.c lines 367-371: on a boot-media mismatch, zero the
whole word (`rcw.boot_cfg = 0`) and then set `boot` to the target. -/
def step_boot (t : boot_t) (s : Nat × Bool) : Nat × Bool :=
  if rcon_boot s.1 ≠ boot_t.toNat t then (rcon_set_boot 0 (boot_t.toNat t), true) else s

/-- Inner block at rcwtool.c lines 375-378: default `speed` to 1. -/
def step_sd_speed (s : Nat × Bool) : Nat × Bool :=
  if sd_speed s.1 = 0 then (sd_set_speed s.1 1, true) else s

/-- Inner block at rcwtool.c lines 380-383: default `wait` to the 50ms code. -/
def step_sd_wait (s : Nat × Bool) : Nat × Bool :=
  if sd_wait s.1 ≠ WAIT_PERIOD_50MS then (sd_set_wait s.1 WAIT_PERIOD_50MS, true) else s

/-- Block at rcwtool.c lines 373-384: SD-specific defaults, applied only when
the (possibly already rewritten) word has `boot == BOOT_SD`. -/
def step_sd (s : Nat × Bool) : Nat × Bool :=
  if rcon_boot s.1 = boot_t.toNat boot_t.BOOT_SD then
    step_sd_wait (step_sd_speed s)
  else s

/-- The complete boot policy of `main` (rcwtool.c lines 362-384): the three
blocks applied in program order to the word `w` with initial `changed`
flag `changed0`.  Returns the final word and the final flag. -/
def plan (changed0 : Bool) (w : Nat) (t : boot_t) : Nat × Bool :=
  step_sd (step_boot t (step_src (w, changed0)))

/-- Function `wait_period_to_ms` (rcwtool.c lines 164-176): `case 0` and
`default` share the `return 0` branch. -/
def wait_period_to_ms (p : Nat) : Nat :=
  match p with
  | 1 => 5
  | 2 => 10
  | 3 => 20
  | 4 => 35
  | 7 => 50
  | _ => 0

/-! The write-back block of `main` (rcwtool.c lines 386-406): write the RCW,
then immediately re-read it.  Transport outcomes are inputs of the model:
`write_ok` is `s32g_rcw_write(...) == MCP2221_SUCCESS`, `read_ok` is the
status of the verification re-read, `reread` the word the re-read returns. -/

/-- Possible outcomes of the write-back block: the two fatal transport
errors (lines 390-394 and 398-402) and normal completion, which prints the
re-read word (lines 404-405) and falls through to `return 0`. -/
inductive write_back_outcome where
  | ok (reread : Nat)
  | err_write
  | err_read
deriving DecidableEq

/-- The write-back block of `main` (rcwtool.c lines 386-406).  `expected` is
the word passed to `s32g_rcw_write`; the code never compares it with the
re-read word, so it does not influence the outcome. -/
def write_back_flow (expected : Nat) (write_ok read_ok : Bool) (reread : Nat) :
    write_back_outcome :=
  if write_ok = false then .err_write
  else if read_ok = false then .err_read
  else .ok reread

/-! Command-line option handling of `main` (rcwtool.c lines 241-286). -/

/-- Initial value of `boot_media` (rcwtool.c line 245): `BOOT_SD`. -/
def boot_media_default : boot_t := boot_t.BOOT_SD

/-- Handler of `--boot` (rcwtool.c lines 266-273): an if/else chain with no
final else, so an unrecognized token leaves `boot_media` unchanged. -/
def bootOptHandler (optarg : String) (boot_media : boot_t) : boot_t :=
  if optarg = "qspi" then boot_t.BOOT_QSPI
  else if optarg = "sd" then boot_t.BOOT_SD
  else if optarg = "mmc" then boot_t.BOOT_MMC
  else boot_media

/-- Handler of `--addr` (rcwtool.c lines 263-264): `sscanf(optarg, "%x", ...)`
with its return value ignored, so a string that does not parse as hex
(`none`) leaves `eeprom_address` unchanged. -/
def addrOptHandler (parsed : Option Int) (eeprom_address : Int) : Int :=
  match parsed with
  | some v => v
  | none => eeprom_address

/-- Result of the argument phase: either the fatal address error of
rcwtool.c lines 283-286 (exit code -1, before `mcp2221_init`), or
continuation into the hardware part of `main` with the chosen address and
boot media. -/
inductive ArgPhase where
  | fatalAddr (addr : Int)
  | proceed (addr : Int) (boot : boot_t)
deriving DecidableEq

/-- The argument phase of `main` (rcwtool.c lines 241-286): defaults, the
two option handlers, then the address range check.  `parsedAddr` is the
result of `sscanf("%x")` on the `--addr` argument (`none` both when the
option is absent and when its argument fails to parse); `bootTok` is the
`--boot` argument when present. -/
def argPhase (parsedAddr : Option Int) (bootTok : Option String) : ArgPhase :=
  let eeprom_address : Int := addrOptHandler parsedAddr DEFAULT_EEPROM_ADDRESS
  let boot_media : boot_t :=
    match bootTok with
    | some s => bootOptHandler s boot_media_default
    | none => boot_media_default
  if eeprom_address < 0 ∨ eeprom_address > 127 then ArgPhase.fatalAddr eeprom_address
  else ArgPhase.proceed eeprom_address boot_media

/-! The byte codec of `s32g_rcw_read` and `s32g_rcw_write` (rcwtool.c lines
142-162).  The union overlays `uint8_t data[4]` with `uint32_t boot_cfg`;
combined with `le32toh`/`htole32`, byte `i` of the wire image holds bits
`8*i .. 8*i+7` of the word on every host. -/

/-- Wire image produced by `s32g_rcw_write`: the 4 bytes of the word in
little-endian order. -/
def s32g_rcw_write_bytes (w : Nat) : List Nat :=
  [w % 256, w / 256 % 256, w / 65536 % 256, w / 16777216 % 256]

/-- Word recovered by `s32g_rcw_read` from the 4 wire bytes (each a
`uint8_t`, modelled by reducing mod 256): `le32toh` of the byte image.  The
transport always delivers exactly `sizeof(rcw_t) = 4` bytes. -/
def s32g_rcw_read_word : List Nat → Nat
  | [b0, b1, b2, b3] => b0 % 256 + b1 % 256 * 256 + b2 % 256 * 65536 + b3 % 256 * 16777216
  | _ => 0

/-! Structured views for the round-trip law: each of the four structs of
`union rcw_u`, with a packing function (writing every bitfield of a zeroed
word, each assignment truncating to the field width as in C) and an
unpacking function (reading every bitfield of a word). -/

/-- Struct `rcon` of `union rcw_u` (rcwtool.c lines 40-50). -/
structure rcon_view where
  phy : Nat
  res0 : Nat
  boot : Nat
  src : Nat
  res1 : Nat
  xosc : Nat
  res2 : Nat
  res3 : Nat
  pll : Nat
deriving DecidableEq

/-- Pack an `rcon_view` into the 32-bit word. -/
def rcon_view.pack (v : rcon_view) : Nat :=
  v.phy % 4 + v.res0 % 8 * 4 + v.boot % 8 * 32 + v.src % 2 * 256
    + v.res1 % 64 * 512 + v.xosc % 2 * 32768 + v.res2 % 8 * 65536
    + v.res3 % 4096 * 524288 + v.pll % 2 * 2147483648

/-- Unpack the 32-bit word through the `rcon` view. -/
def rcon_view.unpack (w : Nat) : rcon_view :=
  ⟨w % 4, w / 4 % 8, w / 32 % 8, w / 256 % 2, w / 512 % 64,
    w / 32768 % 2, w / 65536 % 8, w / 524288 % 4096, w / 2147483648 % 2⟩

/-- Well-formedness of an `rcon_view`: every field fits its bit width. -/
abbrev rcon_view.wf (v : rcon_view) : Prop :=
  v.phy < 4 ∧ v.res0 < 8 ∧ v.boot < 8 ∧ v.src < 2 ∧ v.res1 < 64
    ∧ v.xosc < 2 ∧ v.res2 < 8 ∧ v.res3 < 4096 ∧ v.pll < 2

/-- Struct `sd` of `union rcw_u` (rcwtool.c lines 51-62). -/
structure sd_view where
  phy : Nat
  res0 : Nat
  boot : Nat
  src : Nat
  res1 : Nat
  xosc : Nat
  wait : Nat
  speed : Nat
  res2 : Nat
  pll : Nat
deriving DecidableEq

/-- Pack an `sd_view` into the 32-bit word. -/
def sd_view.pack (v : sd_view) : Nat :=
  v.phy % 4 + v.res0 % 8 * 4 + v.boot % 8 * 32 + v.src % 2 * 256
    + v.res1 % 64 * 512 + v.xosc % 2 * 32768 + v.wait % 8 * 65536
    + v.speed % 2 * 524288 + v.res2 % 2048 * 1048576 + v.pll % 2 * 2147483648

/-- Unpack the 32-bit word through the `sd` view. -/
def sd_view.unpack (w : Nat) : sd_view :=
  ⟨w % 4, w / 4 % 8, w / 32 % 8, w / 256 % 2, w / 512 % 64, w / 32768 % 2,
    w / 65536 % 8, w / 524288 % 2, w / 1048576 % 2048, w / 2147483648 % 2⟩

/-- Well-formedness of an `sd_view`. -/
abbrev sd_view.wf (v : sd_view) : Prop :=
  v.phy < 4 ∧ v.res0 < 8 ∧ v.boot < 8 ∧ v.src < 2 ∧ v.res1 < 64
    ∧ v.xosc < 2 ∧ v.wait < 8 ∧ v.speed < 2 ∧ v.res2 < 2048 ∧ v.pll < 2

/-- Struct `mmc` of `union rcw_u` (rcwtool.c lines 63-74). -/
structure mmc_view where
  phy : Nat
  res0 : Nat
  boot : Nat
  src : Nat
  res1 : Nat
  xosc : Nat
  wait : Nat
  mode : Nat
  res2 : Nat
  pll : Nat
deriving DecidableEq

/-- Pack an `mmc_view` into the 32-bit word. -/
def mmc_view.pack (v : mmc_view) : Nat :=
  v.phy % 4 + v.res0 % 8 * 4 + v.boot % 8 * 32 + v.src % 2 * 256
    + v.res1 % 64 * 512 + v.xosc % 2 * 32768 + v.wait % 8 * 65536
    + v.mode % 16 * 524288 + v.res2 % 256 * 8388608 + v.pll % 2 * 2147483648

/-- Unpack the 32-bit word through the `mmc` view. -/
def mmc_view.unpack (w : Nat) : mmc_view :=
  ⟨w % 4, w / 4 % 8, w / 32 % 8, w / 256 % 2, w / 512 % 64, w / 32768 % 2,
    w / 65536 % 8, w / 524288 % 16, w / 8388608 % 256, w / 2147483648 % 2⟩

/-- Well-formedness of an `mmc_view`. -/
abbrev mmc_view.wf (v : mmc_view) : Prop :=
  v.phy < 4 ∧ v.res0 < 8 ∧ v.boot < 8 ∧ v.src < 2 ∧ v.res1 < 64
    ∧ v.xosc < 2 ∧ v.wait < 8 ∧ v.mode < 16 ∧ v.res2 < 256 ∧ v.pll < 2

/-- Struct `qspi` of `union rcw_u` (rcwtool.c lines 75-93). -/
structure qspi_view where
  phy : Nat
  mode : Nat
  boot : Nat
  src : Nat
  port : Nat
  ck2 : Nat
  cas : Nat
  xosc : Nat
  por_delay : Nat
  ckn : Nat
  res3 : Nat
  tdh : Nat
  fsphs : Nat
  fsdly : Nat
  dllfsmpf : Nat
  dqs_sel : Nat
  pll : Nat
deriving DecidableEq

/-- Pack a `qspi_view` into the 32-bit word. -/
def qspi_view.pack (v : qspi_view) : Nat :=
  v.phy % 4 + v.mode % 8 * 4 + v.boot % 8 * 32 + v.src % 2 * 256
    + v.port % 2 * 512 + v.ck2 % 2 * 1024 + v.cas % 16 * 2048
    + v.xosc % 2 * 32768 + v.por_delay % 8 * 65536 + v.ckn % 2 * 524288
    + v.res3 % 4 * 1048576 + v.tdh % 4 * 4194304 + v.fsphs % 2 * 16777216
    + v.fsdly % 2 * 33554432 + v.dllfsmpf % 8 * 67108864
    + v.dqs_sel % 4 * 536870912 + v.pll % 2 * 2147483648

/-- Unpack the 32-bit word through the `qspi` view. -/
def qspi_view.unpack (w : Nat) : qspi_view :=
  ⟨w % 4, w / 4 % 8, w / 32 % 8, w / 256 % 2, w / 512 % 2, w / 1024 % 2,
    w / 2048 % 16, w / 32768 % 2, w / 65536 % 8, w / 524288 % 2,
    w / 1048576 % 4, w / 4194304 % 4, w / 16777216 % 2, w / 33554432 % 2,
    w / 67108864 % 8, w / 536870912 % 4, w / 2147483648 % 2⟩

/-- Well-formedness of a `qspi_view`. -/
abbrev qspi_view.wf (v : qspi_view) : Prop :=
  v.phy < 4 ∧ v.mode < 8 ∧ v.boot < 8 ∧ v.src < 2 ∧ v.port < 2
    ∧ v.ck2 < 2 ∧ v.cas < 16 ∧ v.xosc < 2 ∧ v.por_delay < 8 ∧ v.ckn < 2
    ∧ v.res3 < 4 ∧ v.tdh < 4 ∧ v.fsphs < 2 ∧ v.fsdly < 2 ∧ v.dllfsmpf < 8
    ∧ v.dqs_sel < 4 ∧ v.pll < 2

/-! The EEPROM write of `at24c01_write` (rcwtool.c lines 126-140): a local
array `uint8_t wbuf[MAX_BUFSZ+1]`, `wbuf[0] = offset`, then
`memcpy(&wbuf[1], w_buf, w_len)`, then one transport call.  The `memcpy`
touches indices `1 .. w_len` of `wbuf`; when `w_len > MAX_BUFSZ` it
overruns the array, which is undefined behaviour.  The overrun happens at
assembly time, before `mcp2221_i2cWriteRead` is reached, so it is modelled
as a fault (`none`) of the assembly, and the transport is only invoked on a
successfully assembled buffer. -/

/-- Buffer assembly of `at24c01_write`: `some ([offset] ++ payload)` when the
payload fits the `MAX_BUFSZ+1`-byte array, the out-of-bounds fault otherwise. -/
def at24c01_assemble (offset : Nat) (w_buf : List Nat) : Option (List Nat) :=
  if w_buf.length ≤ MAX_BUFSZ then some (offset :: w_buf) else none

/-- `at24c01_write`, abstracted over the write-only transport call: assemble
the buffer, then hand it to the transport. -/
def at24c01_write (transport : List Nat → Int) (offset : Nat)
    (w_buf : List Nat) : Option Int :=
  (at24c01_assemble offset w_buf).map transport

/-! Helper lemmas. -/

/-- Decoding the wire image of a 32-bit word recovers the word. -/
lemma read_of_write (w : Nat) (h : w < 4294967296) :
    s32g_rcw_read_word (s32g_rcw_write_bytes w) = w := by
  simp only [s32g_rcw_write_bytes, s32g_rcw_read_word]
  omega

/-- Setting `rcon.src` (bit 8) does not move `rcon.boot` (bits 5-7). -/
lemma rcon_boot_set_src (w v : Nat) :
    rcon_boot (rcon_set_src w v) = rcon_boot w := by
  unfold rcon_boot rcon_set_src
  omega

/-- A packed `rcon_view` fits in 32 bits. -/
lemma rcon_pack_lt (v : rcon_view) : v.pack < 4294967296 := by
  unfold rcon_view.pack
  omega

/-- A packed `sd_view` fits in 32 bits. -/
lemma sd_pack_lt (v : sd_view) : v.pack < 4294967296 := by
  unfold sd_view.pack
  omega

/-- A packed `mmc_view` fits in 32 bits. -/
lemma mmc_pack_lt (v : mmc_view) : v.pack < 4294967296 := by
  unfold mmc_view.pack
  omega

/-- A packed `qspi_view` fits in 32 bits. -/
lemma qspi_pack_lt (v : qspi_view) : v.pack < 4294967296 := by
  unfold qspi_view.pack
  omega

/-- Unpacking a packed well-formed `rcon_view` recovers every field. -/
lemma rcon_unpack_pack (v : rcon_view) (h : v.wf) :
    rcon_view.unpack v.pack = v := by
  obtain ⟨h1, h2, h3, h4, h5, h6, h7, h8, h9⟩ := h
  cases v
  simp only [rcon_view.pack, rcon_view.unpack, rcon_view.mk.injEq] at *
  refine ⟨?_, ?_, ?_, ?_, ?_, ?_, ?_, ?_, ?_⟩ <;> omega

/-- Unpacking a packed well-formed `sd_view` recovers every field. -/
lemma sd_unpack_pack (v : sd_view) (h : v.wf) :
    sd_view.unpack v.pack = v := by
  obtain ⟨h1, h2, h3, h4, h5, h6, h7, h8, h9, h10⟩ := h
  cases v
  simp only [sd_view.pack, sd_view.unpack, sd_view.mk.injEq] at *
  refine ⟨?_, ?_, ?_, ?_, ?_, ?_, ?_, ?_, ?_, ?_⟩ <;> omega

/-- Unpacking a packed well-formed `mmc_view` recovers every field. -/
lemma mmc_unpack_pack (v : mmc_view) (h : v.wf) :
    mmc_view.unpack v.pack = v := by
  obtain ⟨h1, h2, h3, h4, h5, h6, h7, h8, h9, h10⟩ := h
  cases v
  simp only [mmc_view.pack, mmc_view.unpack, mmc_view.mk.injEq] at *
  refine ⟨?_, ?_, ?_, ?_, ?_, ?_, ?_, ?_, ?_, ?_⟩ <;> omega

set_option maxHeartbeats 2000000 in
/-- Unpacking a packed well-formed `qspi_view` recovers every field. -/
lemma qspi_unpack_pack (v : qspi_view) (h : v.wf) :
    qspi_view.unpack v.pack = v := by
  obtain ⟨h1, h2, h3, h4, h5, h6, h7, h8, h9, h10, h11, h12, h13, h14, h15, h16, h17⟩ := h
  cases v
  simp only [qspi_view.pack, qspi_view.unpack, qspi_view.mk.injEq] at *
  refine ⟨?_, ?_, ?_, ?_, ?_, ?_, ?_, ?_, ?_, ?_, ?_, ?_, ?_, ?_, ?_, ?_, ?_⟩ <;> omega

/-! Claim theorems. -/

/-- Claim C1 (code-bug evidence).  The claim states that the `changed` flag
equals the logical OR of the three policy steps, so that on an
already-compliant word it is false and the write-back is skipped.  The C
declares `bool changed;` without an initializer (rcwtool.c line 328) and no
branch ever assigns `false`, so on the compliant word 0x000F0140
(src = I2C, boot = SD, wait = 7, speed = 1) the final flag is whatever
indeterminate value the uninitialized variable happens to hold: with
initial value `true` the policy changes nothing yet reports `changed`,
with initial value `false` it reports unchanged. -/
theorem c1_changed_flag_indeterminate :
    plan true 983360 boot_t.BOOT_SD = (983360, true) ∧
    plan false 983360 boot_t.BOOT_SD = (983360, false) := by
  decide

/-- Claim C2 (counterexample).  The claim states that after a boot-media
switch the resulting word has `src == 1`.  Starting from the word
0xDEADBEEF (whose boot field is 7, not SD) and targeting SD, the policy
zeroes the word, sets `boot = 2` and applies the SD defaults, yielding
0x000F0040 — whose `src` bit is 0, because the full-word zeroing of
rcwtool.c line 368 clears the `src` bit that the first step had set. -/
theorem c2_media_switch_src_cleared_cex :
    rcon_boot 3735928559 ≠ boot_t.toNat boot_t.BOOT_SD ∧
    (plan false 3735928559 boot_t.BOOT_SD).1 = 983104 ∧
    rcon_src (plan false 3735928559 boot_t.BOOT_SD).1 = 0 := by
  decide

/-- Claim C2 (amended).  For every starting word whose boot field differs
from the target, the policy zeroes the entire word and sets `boot` to the
target; the resulting word has `boot` equal to the target, `changed` is
true, and `src == 0` — not 1, since the zeroing clears the `src` bit and
`src` is not forced again afterwards.  When the target is SD the result is
exactly 0x000F0040 (all SD-irrelevant high bits zero, `wait = 7`,
`speed = 1`). -/
theorem c2_media_switch_amended (c0 : Bool) (w : Nat) (t : boot_t)
    (h : rcon_boot w ≠ boot_t.toNat t) :
    rcon_boot (plan c0 w t).1 = boot_t.toNat t ∧
    rcon_src (plan c0 w t).1 = 0 ∧
    (plan c0 w t).2 = true ∧
    (t = boot_t.BOOT_SD → (plan c0 w t).1 = 983104) := by
  have h1 : rcon_boot (step_src (w, c0)).1 = rcon_boot w := by
    unfold step_src
    split
    · exact rcon_boot_set_src w RCON_SRC_I2C
    · rfl
  have hcond : rcon_boot (step_src (w, c0)).1 ≠ boot_t.toNat t := by
    rw [h1]; exact h
  have h2 : step_boot t (step_src (w, c0)) = (rcon_set_boot 0 (boot_t.toNat t), true) := by
    unfold step_boot
    rw [if_pos hcond]
  unfold plan
  rw [h2]
  cases t <;> decide

/-- Claim C2 (witness for the amended theorem), at the starting word
0xDEADBEEF and target SD. -/
theorem c2_media_switch_witness :
    rcon_boot (plan false 3735928559 boot_t.BOOT_SD).1 = boot_t.toNat boot_t.BOOT_SD ∧
    rcon_src (plan false 3735928559 boot_t.BOOT_SD).1 = 0 ∧
    (plan false 3735928559 boot_t.BOOT_SD).2 = true ∧
    (boot_t.BOOT_SD = boot_t.BOOT_SD → (plan false 3735928559 boot_t.BOOT_SD).1 = 983104) :=
  c2_media_switch_amended false 3735928559 boot_t.BOOT_SD (by decide)

/-- Claim C3 (counterexample).  The claim states that a mismatch between the
expected bytes and the re-read bytes is reported as a fatal data-integrity
error.  In the code, when both transport operations succeed the write-back
block prints the re-read word and `main` returns 0, with no comparison at
all: with expected word 0x000F0040 and re-read word 0 the outcome is the
normal `ok` completion, not an error. -/
theorem c3_no_compare_cex :
    write_back_flow 983104 true true 0 = write_back_outcome.ok 0 ∧
    (0 : Nat) ≠ 983104 := by
  decide

/-- Claim C3 (amended).  After the write the program immediately re-reads 4
bytes at the same offset; a transport failure of the write or of the
re-read is fatal (distinct messages, no retry), but the re-read word is
only printed: it is never compared against the expected bytes, and no
data-integrity error distinct from the transport errors exists — when both
transport calls succeed the run completes normally whatever the re-read
word is. -/
theorem c3_write_back_amended (expected : Nat) (write_ok read_ok : Bool) (reread : Nat) :
    (write_ok = false → write_back_flow expected write_ok read_ok reread = write_back_outcome.err_write) ∧
    (write_ok = true → read_ok = false → write_back_flow expected write_ok read_ok reread = write_back_outcome.err_read) ∧
    (write_ok = true → read_ok = true → write_back_flow expected write_ok read_ok reread = write_back_outcome.ok reread) := by
  refine ⟨fun hw => ?_, fun hw hr => ?_, fun hw hr => ?_⟩ <;>
    simp [write_back_flow, hw]
  · simp [hr]
  · simp [hr]

/-- Claim C3 (witness for the amended theorem). -/
theorem c3_write_back_witness :
    write_back_flow 983104 false true 0 = write_back_outcome.err_write ∧
    write_back_flow 983104 true true 0 = write_back_outcome.ok 0 :=
  ⟨(c3_write_back_amended 983104 false true 0).1 rfl,
   (c3_write_back_amended 983104 true true 0).2.2 rfl rfl⟩

/-- Claim C4 (counterexample).  The claim states that the reserved wait
codes 5 and 6 are reported as an explicit "unknown" marker.
`wait_period_to_ms` returns a plain number and its `default` branch sends
5 and 6 to 0 — the same value as the defined code 0 — so no marker
distinguishes a reserved code from "0 ms". -/
theorem c4_reserved_wait_codes_cex :
    wait_period_to_ms 5 = wait_period_to_ms 0 ∧
    wait_period_to_ms 6 = wait_period_to_ms 0 ∧
    wait_period_to_ms 0 = 0 := by
  decide

/-- Claim C4 (amended).  `wait_period_to_ms` is a total function mapping
0, 1, 2, 3, 4, 7 to 0, 5, 10, 20, 35, 50 milliseconds; the reserved inputs
5 and 6 fall into the shared `case 0`/`default` branch and also map to
0 ms — never an error or crash, but indistinguishable from code 0 rather
than an explicit "unknown" marker. -/
theorem c4_wait_mapping_amended :
    wait_period_to_ms 0 = 0 ∧ wait_period_to_ms 1 = 5 ∧
    wait_period_to_ms 2 = 10 ∧ wait_period_to_ms 3 = 20 ∧
    wait_period_to_ms 4 = 35 ∧ wait_period_to_ms 7 = 50 ∧
    wait_period_to_ms 5 = 0 ∧ wait_period_to_ms 6 = 0 := by
  decide

/-- Claim C5 (counterexample).  The claim states that a malformed address
argument and an unrecognized boot-medium token are each fatal before any
hardware access.  A run with a malformed `--addr` argument (sscanf parses
nothing, modelled as `none`) and the unrecognized token "nand" proceeds
into the hardware part of `main` with the default address 0x50 and the
default boot media SD: neither error is detected. -/
theorem c5_arg_errors_cex :
    argPhase none (some "nand") = ArgPhase.proceed DEFAULT_EEPROM_ADDRESS boot_t.BOOT_SD := by
  decide

/-- Claim C5 (amended).  Only an out-of-range address value that was
successfully parsed is detected, before any hardware access, and is fatal
with a descriptive message; a malformed address string is silently ignored
(the `sscanf` return value is never checked, so the default address 0x50
stays in place) and an unrecognized boot-medium token is silently ignored
(the if/else chain has no final else, so the boot media keeps its previous
value); neither of those is fatal. -/
theorem c5_arg_errors_amended (a : Int) (s : String) :
    (127 < a → argPhase (some a) (some s) = ArgPhase.fatalAddr a) ∧
    (s ≠ "qspi" → s ≠ "sd" → s ≠ "mmc" →
      argPhase none (some s) = ArgPhase.proceed DEFAULT_EEPROM_ADDRESS boot_media_default) := by
  constructor
  · intro h
    simp only [argPhase, addrOptHandler]
    rw [if_pos (Or.inr h)]
  · intro h1 h2 h3
    simp only [argPhase, addrOptHandler, bootOptHandler]
    rw [if_neg h1, if_neg h2, if_neg h3, if_neg (by decide)]

/-- Claim C5 (witness for the amended theorem): out-of-range address 0x80 is
fatal; the unrecognized token "nand" with an absent/unparsable address is
not. -/
theorem c5_arg_errors_witness :
    argPhase (some 128) (some "nand") = ArgPhase.fatalAddr 128 ∧
    argPhase none (some "nand") = ArgPhase.proceed DEFAULT_EEPROM_ADDRESS boot_media_default :=
  ⟨(c5_arg_errors_amended 128 "nand").1 (by decide),
   (c5_arg_errors_amended 128 "nand").2 (by decide) (by decide) (by decide)⟩

/-- Claim C6.  For every well-formed structured value of each of the four
views (generic/RCON, SD, MMC, QSPI), decoding the 4 wire bytes produced by
encoding the value, under the same view, yields the value again. -/
theorem c6_round_trip (v1 : rcon_view) (v2 : sd_view) (v3 : mmc_view) (v4 : qspi_view)
    (h1 : v1.wf) (h2 : v2.wf) (h3 : v3.wf) (h4 : v4.wf) :
    rcon_view.unpack (s32g_rcw_read_word (s32g_rcw_write_bytes v1.pack)) = v1 ∧
    sd_view.unpack (s32g_rcw_read_word (s32g_rcw_write_bytes v2.pack)) = v2 ∧
    mmc_view.unpack (s32g_rcw_read_word (s32g_rcw_write_bytes v3.pack)) = v3 ∧
    qspi_view.unpack (s32g_rcw_read_word (s32g_rcw_write_bytes v4.pack)) = v4 := by
  refine ⟨?_, ?_, ?_, ?_⟩
  · rw [read_of_write _ (rcon_pack_lt v1)]
    exact rcon_unpack_pack v1 h1
  · rw [read_of_write _ (sd_pack_lt v2)]
    exact sd_unpack_pack v2 h2
  · rw [read_of_write _ (mmc_pack_lt v3)]
    exact mmc_unpack_pack v3 h3
  · rw [read_of_write _ (qspi_pack_lt v4)]
    exact qspi_unpack_pack v4 h4

/-- Claim C6 (witness), at one concrete well-formed value per view. -/
theorem c6_round_trip_witness :
    rcon_view.unpack (s32g_rcw_read_word (s32g_rcw_write_bytes
      (rcon_view.pack ⟨1, 2, 3, 1, 5, 0, 6, 100, 1⟩))) = ⟨1, 2, 3, 1, 5, 0, 6, 100, 1⟩ ∧
    sd_view.unpack (s32g_rcw_read_word (s32g_rcw_write_bytes
      (sd_view.pack ⟨2, 1, 2, 1, 33, 1, 7, 1, 1000, 0⟩))) = ⟨2, 1, 2, 1, 33, 1, 7, 1, 1000, 0⟩ ∧
    mmc_view.unpack (s32g_rcw_read_word (s32g_rcw_write_bytes
      (mmc_view.pack ⟨0, 7, 3, 0, 63, 1, 5, 9, 255, 1⟩))) = ⟨0, 7, 3, 0, 63, 1, 5, 9, 255, 1⟩ ∧
    qspi_view.unpack (s32g_rcw_read_word (s32g_rcw_write_bytes
      (qspi_view.pack ⟨1, 5, 0, 1, 1, 0, 9, 1, 4, 1, 2, 3, 1, 0, 5, 2, 1⟩)))
      = ⟨1, 5, 0, 1, 1, 0, 9, 1, 4, 1, 2, 3, 1, 0, 5, 2, 1⟩ :=
  c6_round_trip ⟨1, 2, 3, 1, 5, 0, 6, 100, 1⟩ ⟨2, 1, 2, 1, 33, 1, 7, 1, 1000, 0⟩
    ⟨0, 7, 3, 0, 63, 1, 5, 9, 255, 1⟩ ⟨1, 5, 0, 1, 1, 0, 9, 1, 4, 1, 2, 3, 1, 0, 5, 2, 1⟩
    (by decide) (by decide) (by decide) (by decide)

/-- Claim C7.  The RCW is serialized little-endian: encoding 0x01020304
yields the wire bytes 04 03 02 01, decoding the bytes 04 03 02 01 yields
0x01020304, and for every 32-bit word the round trip is the identity and
byte `i` of the wire image holds bits `8*i .. 8*i+7` of the word. -/
theorem c7_little_endian :
    s32g_rcw_write_bytes 16909060 = [4, 3, 2, 1] ∧
    s32g_rcw_read_word [4, 3, 2, 1] = 16909060 ∧
    ∀ w : Nat, w < 4294967296 →
      (s32g_rcw_read_word (s32g_rcw_write_bytes w) = w ∧
       (s32g_rcw_write_bytes w).getD 0 0 = w % 256 ∧
       (s32g_rcw_write_bytes w).getD 1 0 = w / 256 % 256 ∧
       (s32g_rcw_write_bytes w).getD 2 0 = w / 65536 % 256 ∧
       (s32g_rcw_write_bytes w).getD 3 0 = w / 16777216 % 256) := by
  refine ⟨by decide, by decide, fun w hw => ⟨read_of_write w hw, rfl, rfl, rfl, rfl⟩⟩

/-- Claim C7 (witness), at the word 0xDEADBEEF. -/
theorem c7_little_endian_witness :
    s32g_rcw_read_word (s32g_rcw_write_bytes 3735928559) = 3735928559 ∧
    (s32g_rcw_write_bytes 3735928559).getD 0 0 = 3735928559 % 256 ∧
    (s32g_rcw_write_bytes 3735928559).getD 1 0 = 3735928559 / 256 % 256 ∧
    (s32g_rcw_write_bytes 3735928559).getD 2 0 = 3735928559 / 65536 % 256 ∧
    (s32g_rcw_write_bytes 3735928559).getD 3 0 = 3735928559 / 16777216 % 256 :=
  c7_little_endian.2.2 3735928559 (by decide)

/-- Claim C8.  For the EEPROM write, a payload longer than `MAX_BUFSZ` is a
contract violation whose effect (the overrun of the `MAX_BUFSZ+1`-byte
buffer) occurs at assembly time, before the transport is ever invoked;
under the precondition `length ≤ MAX_BUFSZ` the assembled buffer is exactly
`[offset] ++ payload` and stays within the buffer bound. -/
theorem c8_write_bounds (offset : Nat) (w_buf : List Nat) :
    (w_buf.length ≤ MAX_BUFSZ →
      at24c01_assemble offset w_buf = some (offset :: w_buf) ∧
      (offset :: w_buf).length ≤ MAX_BUFSZ + 1) ∧
    (MAX_BUFSZ < w_buf.length →
      ∀ transport : List Nat → Int, at24c01_write transport offset w_buf = none) := by
  constructor
  · intro h
    constructor
    · unfold at24c01_assemble
      rw [if_pos h]
    · simp only [List.length_cons]
      omega
  · intro h transport
    unfold at24c01_write at24c01_assemble
    rw [if_neg (by omega)]
    rfl

/-- Claim C8 (witness): a 4-byte payload is assembled in bounds; a 61-byte
payload is rejected before any transport call. -/
theorem c8_write_bounds_witness :
    (at24c01_assemble 0 [64, 1, 15, 0] = some (0 :: [64, 1, 15, 0]) ∧
      (0 :: [64, 1, 15, 0]).length ≤ MAX_BUFSZ + 1) ∧
    at24c01_write (fun _ => 0) 0 (List.replicate 61 0) = none :=
  ⟨(c8_write_bounds 0 [64, 1, 15, 0]).1 (by decide),
   (c8_write_bounds 0 (List.replicate 61 0)).2 (by decide) (fun _ => 0)⟩

/-- Claim C9.  In all four views of the word — generic/RCON, SD, MMC and
QSPI — the `boot` field occupies bits 5-7, `phy` bits 0-1, `src` bit 8 and
`pll` bit 31, so extracting any of these fields through any view of the
same raw word yields the same value; the invariance extends to the QSPI
view. -/
theorem c9_shared_fields (w : Nat) :
    rcon_phy w = w % 4 ∧ sd_phy w = rcon_phy w ∧
    mmc_phy w = rcon_phy w ∧ qspi_phy w = rcon_phy w ∧
    rcon_boot w = w / 32 % 8 ∧ sd_boot w = rcon_boot w ∧
    mmc_boot w = rcon_boot w ∧ qspi_boot w = rcon_boot w ∧
    rcon_src w = w / 256 % 2 ∧ sd_src w = rcon_src w ∧
    mmc_src w = rcon_src w ∧ qspi_src w = rcon_src w ∧
    rcon_pll w = w / 2147483648 % 2 ∧ sd_pll w = rcon_pll w ∧
    mmc_pll w = rcon_pll w ∧ qspi_pll w = rcon_pll w :=
  ⟨rfl, rfl, rfl, rfl, rfl, rfl, rfl, rfl, rfl, rfl, rfl, rfl, rfl, rfl, rfl, rfl⟩

/-- Claim C10.  When no `--boot` option is supplied, `boot_media` keeps its
initial value `BOOT_SD` (rcwtool.c line 245), so the argument phase and the
boot policy behave exactly as if `--boot=sd` had been given. -/
theorem c10_default_boot_sd (parsedAddr : Option Int) (c0 : Bool) (w : Nat) :
    boot_media_default = boot_t.BOOT_SD ∧
    argPhase parsedAddr none = argPhase parsedAddr (some "sd") ∧
    plan c0 w boot_media_default = plan c0 w boot_t.BOOT_SD := by
  refine ⟨rfl, ?_, rfl⟩
  have h : bootOptHandler "sd" boot_media_default = boot_media_default := by decide
  simp only [argPhase]
  rw [h]

end Rcwtool
